import Mathlib

/-!
Shallow embedding of the job orchestration and state-persistence core of the
shorts-creation repository: the SQLite-backed ledgers of `src/db.js`, the
credential lookup of `src/oauth/google.js`, and the orchestrator
`runCreateShorts` of `src/workflow/runner.js`.  The five external
collaborators (download, trim, audio extraction, transcription, upload) are
external processes per the component contracts; they appear here as outcome
parameters (`Except` values: a rejection carries its stringified message).
-/

/-- Row of the `jobs` table created in `src/db.js`. -/
structure JobRow where
  id : String
  telegram_user_id : String
  source_url : String
  status : String
  created_at : Nat
  updated_at : Nat
  video_id : Option String
  error : Option String
deriving Repr, DecidableEq

/-- The optional `extra` argument of `updateJobStatus`, destructured in the
source as `const \x7b video_id = null, error = null \x7d = extra`; an absent
field and an explicit null both come out as `none`. -/
structure JobExtra where
  video_id : Option String := none
  error : Option String := none
deriving Repr, DecidableEq

/-- Embedding of `createJob` in `src/db.js`: INSERT of a fresh row with
`created_at = updated_at = now` and NULL `video_id` and `error`.  The
primary-key collision case is not modelled; the orchestrator always calls it
with a freshly generated UUID, and freshness is a hypothesis of the run
theorems below. -/
def createJob (now : Nat) (id tuid url status : String) (jobs : List JobRow) : List JobRow :=
  jobs ++ [{ id := id, telegram_user_id := tuid, source_url := url,
             status := status, created_at := now, updated_at := now,
             video_id := none, error := none }]

/-- Effect of `updateJobStatus` on one matching row, from the UPDATE in
`src/db.js`: `SET status = ?, updated_at = ?, video_id = COALESCE(?, video_id),
error = ?`. -/
def applyJobUpdate (now : Nat) (status : String) (extra : JobExtra) (r : JobRow) : JobRow :=
  { r with status := status, updated_at := now,
           video_id := match extra.video_id with
                       | some v => some v
                       | none => r.video_id,
           error := extra.error }

/-- Embedding of `updateJobStatus` in `src/db.js`: `UPDATE jobs SET ... WHERE
id = ?`; rewrites every row whose `id` matches (at most one, by the primary
key) and is a silent no-op when none matches. -/
def updateJobStatus (now : Nat) (id status : String) (extra : JobExtra)
    (jobs : List JobRow) : List JobRow :=
  jobs.map fun r => if r.id = id then applyJobUpdate now status extra r else r

/-- Embedding of `getJob` in `src/db.js`: `SELECT * FROM jobs WHERE id = ?`
via `.get`, i.e. the first matching row or NULL. -/
def getJob (id : String) (jobs : List JobRow) : Option JobRow :=
  jobs.find? fun r => r.id = id

/-- Row of the `oauth_tokens` table created in `src/db.js`. -/
structure TokenRow where
  telegram_user_id : String
  access_token : Option String
  refresh_token : Option String
  scope : Option String
  token_type : Option String
  expiry_date : Option Int
deriving Repr, DecidableEq

/-- The caller-supplied token object of `upsertToken`; every field may be
absent. -/
structure TokenInput where
  access_token : Option String := none
  refresh_token : Option String := none
  scope : Option String := none
  token_type : Option String := none
  expiry_date : Option Int := none
deriving Repr, DecidableEq

/-- JS `x || null` on a nullable string: the empty string is falsy. -/
def jsOrNullStr (o : Option String) : Option String :=
  match o with
  | some s => if s = "" then none else some s
  | none => none

/-- JS `x || null` on a nullable integer: 0 is falsy. -/
def jsOrNullInt (o : Option Int) : Option Int :=
  match o with
  | some n => if n = 0 then none else some n
  | none => none

/-- JS `token.token_type || 'Bearer'`. -/
def jsOrBearer (o : Option String) : String :=
  match o with
  | some s => if s = "" then "Bearer" else s
  | none => "Bearer"

/-- The bound parameter record of `upsertToken`'s `stmt.run` call in
`src/db.js` (`refresh_token: token.refresh_token || null`, etc.). -/
def boundTokenRow (owner : String) (t : TokenInput) : TokenRow :=
  { telegram_user_id := owner,
    access_token := t.access_token,
    refresh_token := jsOrNullStr t.refresh_token,
    scope := jsOrNullStr t.scope,
    token_type := some (jsOrBearer t.token_type),
    expiry_date := jsOrNullInt t.expiry_date }

/-- The `DO UPDATE SET` result row of `upsertToken`'s conflict branch:
`access_token = excluded.access_token`,
`refresh_token = COALESCE(excluded.refresh_token, oauth_tokens.refresh_token)`,
and the remaining fields taken from the excluded (new) row. -/
def mergeTokenRow (owner : String) (t : TokenInput) (r : TokenRow) : TokenRow :=
  let b := boundTokenRow owner t
  { r with access_token := b.access_token,
           refresh_token := match b.refresh_token with
                            | some v => some v
                            | none => r.refresh_token,
           scope := b.scope,
           token_type := b.token_type,
           expiry_date := b.expiry_date }

/-- Embedding of `upsertToken` in `src/db.js`: `INSERT ... ON
CONFLICT(telegram_user_id) DO UPDATE SET ...`.  A conflict (an existing row
with the same key) updates that row in place; otherwise the bound row is
inserted. -/
def upsertToken (owner : String) (t : TokenInput) (tbl : List TokenRow) : List TokenRow :=
  if tbl.any (fun r => r.telegram_user_id = owner) then
    tbl.map fun r => if r.telegram_user_id = owner then mergeTokenRow owner t r else r
  else tbl ++ [boundTokenRow owner t]

/-- Embedding of `getToken` in `src/db.js`: first row with the key or NULL. -/
def getToken (owner : String) (tbl : List TokenRow) : Option TokenRow :=
  tbl.find? fun r => r.telegram_user_id = owner

/-- Row of the `oauth_states` table created in `src/db.js`. -/
structure StateRow where
  state : String
  telegram_user_id : String
  created_at : Nat
deriving Repr, DecidableEq

/-- Embedding of `createState` in `src/db.js`: INSERT of the pairing.  As
with `createJob`, the primary-key collision case is a hypothesis of the
theorems (the caller generates a fresh random token). -/
def createState (owner tok : String) (now : Nat) (tbl : List StateRow) : List StateRow :=
  tbl ++ [{ state := tok, telegram_user_id := owner, created_at := now }]

/-- Embedding of `consumeState` in `src/db.js`: SELECT the row for the token;
if one exists, DELETE every row with that token; return the row or NULL. -/
def consumeState (tok : String) (tbl : List StateRow) : Option StateRow × List StateRow :=
  match tbl.find? (fun r => r.state = tok) with
  | some row => (some row, tbl.filter fun r => ¬ r.state = tok)
  | none => (none, tbl)

/-- The credential handle built by `getAuthorizedClient` in
`src/oauth/google.js`: an OAuth2 client loaded with the stored credentials
(the ambient client id/secret and redirect URI play no role in the claims). -/
structure OAuthClient where
  access_token : Option String
  refresh_token : Option String
  scope : Option String
  token_type : Option String
  expiry_date : Option Int
deriving Repr, DecidableEq

/-- Embedding of `getAuthorizedClient` in `src/oauth/google.js`: NULL when
`getToken` finds no row, otherwise a client carrying the stored
credentials. -/
def getAuthorizedClient (telegramUserId : String) (tbl : List TokenRow) : Option OAuthClient :=
  match getToken telegramUserId tbl with
  | none => none
  | some t => some { access_token := t.access_token, refresh_token := t.refresh_token,
                     scope := t.scope, token_type := t.token_type,
                     expiry_date := t.expiry_date }

/-- Outcomes of single invocations of the five external collaborators:
`Except.error m` models a rejection with stringified message `m`;
`Except.ok v` a fulfilled value (a file path, or the uploaded video id). -/
structure Collabs where
  downloadVideo : Except String String
  trimAndFormat : Except String String
  extractAudio : Except String String
  transcribeToSrt : Except String String
  uploadVideoWithCaptions : Except String String

/-- The arguments of `runCreateShorts` together with the ambient
`oauth_tokens` table read by `getAuthorizedClient`.  `notify` is the optional
observer callback, which may itself reject (`Except.error m`); `jobId` stands
for the `crypto.randomUUID()` result. -/
structure RunCfg where
  jobId : String
  telegramUserId : String
  url : String
  tokens : List TokenRow
  collabs : Collabs
  notify : Option (String → Except String Unit)

/-- Observable state threaded through a run: the `jobs` table, a tick counter
standing for `Date.now()`, and the traces of status writes, of the job's own
row after each write, of the strings the observer was invoked with, and of
the collaborators invoked. -/
structure St where
  jobs : List JobRow
  clock : Nat
  writes : List String
  rowHist : List (Option JobRow)
  notified : List String
  invoked : List String

/-- One ledger write inside the run: `updateJobStatus` plus the bookkeeping
traces. -/
def recordUpdate (jobId status : String) (extra : JobExtra) (st : St) : St :=
  let jobs1 := updateJobStatus st.clock jobId status extra st.jobs
  { jobs := jobs1, clock := st.clock + 1,
    writes := st.writes ++ [status],
    rowHist := st.rowHist ++ [getJob jobId jobs1],
    notified := st.notified, invoked := st.invoked }

/-- The local `step` helper of `runCreateShorts` in `src/workflow/runner.js`:
`updateJobStatus(jobId, status); if (notify) await notify(status); return
fn()`.  There is no handler around the notification, so its rejection escapes
`step`, and the collaborator `fn` runs only when the notification did not
reject. -/
def mkStep (cfg : RunCfg) (st : St) (status cname : String)
    (outcome : Except String String) : St × Except String String :=
  let st1 := recordUpdate cfg.jobId status {} st
  match cfg.notify with
  | some f =>
    let st2 := { st1 with notified := st1.notified ++ [status] }
    match f status with
    | Except.error e => (st2, Except.error e)
    | Except.ok _ => ({ st2 with invoked := st2.invoked ++ [cname] }, outcome)
  | none => ({ st1 with invoked := st1.invoked ++ [cname] }, outcome)

/-- The `try` block of `runCreateShorts`: the four media stages, the
credential check, the upload stage, and the `completed` write and
notification.  Returns `Except.error m` exactly for the value that reaches
the `catch` handler. -/
def runBody (cfg : RunCfg) (st0 : St) : St × Except String Unit :=
  match mkStep cfg st0 "downloading" "downloadVideo" cfg.collabs.downloadVideo with
  | (st, Except.error e) => (st, Except.error e)
  | (st, Except.ok _sourcePath) =>
  match mkStep cfg st "processing" "trimAndFormat" cfg.collabs.trimAndFormat with
  | (st, Except.error e) => (st, Except.error e)
  | (st, Except.ok _shortsPath) =>
  match mkStep cfg st "audio_extract" "extractAudio" cfg.collabs.extractAudio with
  | (st, Except.error e) => (st, Except.error e)
  | (st, Except.ok _audioPath) =>
  match mkStep cfg st "transcribing" "transcribeToSrt" cfg.collabs.transcribeToSrt with
  | (st, Except.error e) => (st, Except.error e)
  | (st, Except.ok _srtPath) =>
  match getAuthorizedClient cfg.telegramUserId cfg.tokens with
  | none => (st, Except.error "Google not linked. Use the dashboard to connect your YouTube.")
  | some _client =>
  match mkStep cfg st "uploading" "uploadVideoWithCaptions" cfg.collabs.uploadVideoWithCaptions with
  | (st, Except.error e) => (st, Except.error e)
  | (st, Except.ok videoId) =>
  let st1 := recordUpdate cfg.jobId "completed" { video_id := some videoId } st
  match cfg.notify with
  | some f =>
    let st2 := { st1 with notified := st1.notified ++ ["completed"] }
    match f "completed" with
    | Except.error e => (st2, Except.error e)
    | Except.ok _ => (st2, Except.ok ())
  | none => (st1, Except.ok ())

/-- Result of a `runCreateShorts` call: the final state, the returned job id,
and `thrown` = the rejection escaping the function, which happens exactly
when the `catch` handler's own `notify` call rejects. -/
structure RunResult where
  st : St
  jobId : String
  thrown : Option String

/-- Embedding of `runCreateShorts` in `src/workflow/runner.js`: create the
`queued` row, run the staged body, and on any caught rejection write `failed`
with the stringified message and notify `failed: <message>`. -/
def runCreateShorts (cfg : RunCfg) (jobs0 : List JobRow) : RunResult :=
  let jobs1 := createJob 0 cfg.jobId cfg.telegramUserId cfg.url "queued" jobs0
  let st0 : St := { jobs := jobs1, clock := 1, writes := ["queued"],
                    rowHist := [getJob cfg.jobId jobs1], notified := [], invoked := [] }
  match runBody cfg st0 with
  | (st, Except.ok _) => { st := st, jobId := cfg.jobId, thrown := none }
  | (st, Except.error e) =>
    let st1 := recordUpdate cfg.jobId "failed" { error := some e } st
    match cfg.notify with
    | some f =>
      let st2 := { st1 with notified := st1.notified ++ ["failed: " ++ e] }
      match f ("failed: " ++ e) with
      | Except.error e2 => { st := st2, jobId := cfg.jobId, thrown := some e2 }
      | Except.ok _ => { st := st2, jobId := cfg.jobId, thrown := none }
    | none => { st := st1, jobId := cfg.jobId, thrown := none }

/-- The linear stage order of the Job Runner state machine. -/
def stageOrder : List String :=
  ["queued", "downloading", "processing", "audio_extract", "transcribing",
   "uploading", "completed"]

/-- The spec's shape for a job's status-write sequence: an initial segment of
`stageOrder`, optionally terminated by one `failed` written from a
non-terminal state. -/
def goodTrace (w : List String) : Prop :=
  w ∈ stageOrder.inits ∨
    ∃ p ∈ stageOrder.inits, p ≠ [] ∧ "completed" ∉ p ∧ w = p ++ ["failed"]

instance (w : List String) : Decidable (goodTrace w) := by
  unfold goodTrace
  exact inferInstance

/-- The spec's exactly-one-of invariant on a job row, with the status
correlation: `result_ref` set exactly on `completed`, `error` set exactly on
`failed`, neither set while in progress. -/
def rowInvariant (r : JobRow) : Prop :=
  (r.status = "completed" ∧ r.video_id ≠ none ∧ r.error = none) ∨
  (r.status = "failed" ∧ r.video_id = none ∧ r.error ≠ none) ∨
  (r.status ≠ "completed" ∧ r.status ≠ "failed" ∧ r.video_id = none ∧ r.error = none)

instance (r : JobRow) : Decidable (rowInvariant r) := by
  unfold rowInvariant
  exact inferInstance

/-- The five stage statuses in pipeline order. -/
def stageStatuses : List String :=
  ["downloading", "processing", "audio_extract", "transcribing", "uploading"]

/-- The five collaborator names in pipeline order. -/
def collabNames : List String :=
  ["downloadVideo", "trimAndFormat", "extractAudio", "transcribeToSrt",
   "uploadVideoWithCaptions"]

/-- Outcome of the i-th stage collaborator (i < 5). -/
def collabOutcome (c : Collabs) : Nat → Except String String
  | 0 => c.downloadVideo
  | 1 => c.trimAndFormat
  | 2 => c.extractAudio
  | 3 => c.transcribeToSrt
  | _ => c.uploadVideoWithCaptions

/-! ### Concrete fixtures for counterexamples and witnesses -/

/-- A stored credential record for owner `u1`. -/
def sampleTokens : List TokenRow :=
  [{ telegram_user_id := "u1", access_token := some "a", refresh_token := some "r",
     scope := none, token_type := some "Bearer", expiry_date := none }]

/-- Collaborator outcomes for a run in which all five stages succeed; the
upload collaborator returns the video id `vid123`. -/
def sampleCollabs : Collabs :=
  { downloadVideo := Except.ok "/j/source.mp4",
    trimAndFormat := Except.ok "/j/shorts.mp4",
    extractAudio := Except.ok "/j/audio.m4a",
    transcribeToSrt := Except.ok "/j/audio.srt",
    uploadVideoWithCaptions := Except.ok "vid123" }

/-- A run configuration in which every collaborator succeeds, the owner is
linked, and the observer never rejects. -/
def cfgBase : RunCfg :=
  { jobId := "job1", telegramUserId := "u1", url := "https://video/x",
    tokens := sampleTokens, collabs := sampleCollabs,
    notify := some fun _ => Except.ok () }

/-- Same as `cfgBase` except that the observer rejects on the `downloading`
notification. -/
def cfgObserverFailDownloading : RunCfg :=
  { cfgBase with
    notify := some fun s =>
      if s = "downloading" then Except.error "observer down" else Except.ok () }

/-- Same as `cfgBase` except that the observer rejects on the `completed`
notification. -/
def cfgObserverFailCompleted : RunCfg :=
  { cfgBase with
    notify := some fun s =>
      if s = "completed" then Except.error "observer down" else Except.ok () }

/-- Same as `cfgBase` except that the owner has no stored credential. -/
def cfgNoToken : RunCfg :=
  { cfgBase with tokens := [] }

/-- Same as `cfgBase` except that the transcription collaborator rejects. -/
def cfgTranscribeFails : RunCfg :=
  { cfgBase with
    collabs := { sampleCollabs with transcribeToSrt := Except.error "whisper failed" } }

/-- The final job row of `runCreateShorts cfgBase []` (all stages succeed). -/
def rowCompletedBase : JobRow :=
  { id := "job1", telegram_user_id := "u1", source_url := "https://video/x",
    status := "completed", created_at := 0, updated_at := 6,
    video_id := some "vid123", error := none }

/-- The final job row of `runCreateShorts cfgObserverFailCompleted []`. -/
def rowAfterObserverFailCompleted : JobRow :=
  { id := "job1", telegram_user_id := "u1", source_url := "https://video/x",
    status := "failed", created_at := 0, updated_at := 7,
    video_id := some "vid123", error := some "observer down" }

/-! ### Ledger lemmas -/

theorem applyJobUpdate_id (now : Nat) (status : String) (extra : JobExtra) (r : JobRow) :
    (applyJobUpdate now status extra r).id = r.id := rfl

theorem getJob_updateJobStatus (now : Nat) (id status : String) (extra : JobExtra)
    (jobs : List JobRow) :
    getJob id (updateJobStatus now id status extra jobs)
      = (getJob id jobs).map (applyJobUpdate now status extra) := by
  induction jobs with
  | nil => rfl
  | cons r rest ih =>
    simp only [updateJobStatus, getJob, List.map_cons] at ih ⊢
    by_cases h : r.id = id
    · rw [if_pos h, List.find?_cons_of_pos _ (by simp [applyJobUpdate_id, h]),
          List.find?_cons_of_pos _ (by simp [h])]
      rfl
    · rw [if_neg h, List.find?_cons_of_neg _ (by simp [h]),
          List.find?_cons_of_neg _ (by simp [h]), ih]

theorem find?_filter_not_state (tok : String) (tbl : List StateRow) :
    (tbl.filter fun r => ¬ r.state = tok).find? (fun r => r.state = tok) = none := by
  rw [List.find?_eq_none]
  intro x hx
  have hmem := (List.mem_filter.mp hx).2
  simp only [decide_not, Bool.not_eq_true', decide_eq_false_iff_not] at hmem
  simp [hmem]

theorem mergeTokenRow_key (owner : String) (t : TokenInput) (r : TokenRow) :
    (mergeTokenRow owner t r).telegram_user_id = r.telegram_user_id := rfl

theorem getToken_map_merge (owner : String) (t : TokenInput) (tbl : List TokenRow)
    (r0 : TokenRow) (h : getToken owner tbl = some r0) :
    getToken owner
        (tbl.map fun r => if r.telegram_user_id = owner then mergeTokenRow owner t r else r)
      = some (mergeTokenRow owner t r0) := by
  induction tbl with
  | nil => simp [getToken] at h
  | cons r rest ih =>
    by_cases hk : r.telegram_user_id = owner
    · have hr : r0 = r := by
        simp only [getToken] at h
        rw [List.find?_cons_of_pos _ (by simp [hk])] at h
        exact (Option.some.inj h).symm
      subst hr
      simp only [List.map_cons, if_pos hk, getToken]
      rw [List.find?_cons_of_pos _ (by simp [mergeTokenRow_key, hk])]
    · have h2 : getToken owner rest = some r0 := by
        simp only [getToken] at h ⊢
        rwa [List.find?_cons_of_neg _ (by simp [hk])] at h
      simp only [List.map_cons, if_neg hk, getToken]
      rw [List.find?_cons_of_neg _ (by simp [hk])]
      exact ih h2

theorem getToken_isSome_of_any (owner : String) (tbl : List TokenRow)
    (ha : tbl.any (fun r => r.telegram_user_id = owner) = true) :
    ∃ r0, getToken owner tbl = some r0 := by
  induction tbl with
  | nil => simp at ha
  | cons r rest ih =>
    by_cases hk : r.telegram_user_id = owner
    · exact ⟨r, by simp only [getToken]; rw [List.find?_cons_of_pos _ (by simp [hk])]⟩
    · have ha2 : rest.any (fun r => r.telegram_user_id = owner) = true := by
        simp only [List.any_cons, Bool.or_eq_true] at ha
        rcases ha with ha | ha
        · exact absurd (of_decide_eq_true ha) hk
        · exact ha
      obtain ⟨r0, h0⟩ := ih ha2
      refine ⟨r0, ?_⟩
      simp only [getToken] at h0 ⊢
      rw [List.find?_cons_of_neg _ (by simp [hk])]
      exact h0

theorem getToken_append_single (owner : String) (tbl : List TokenRow) (b : TokenRow)
    (h : getToken owner tbl = none) (hb : b.telegram_user_id = owner) :
    getToken owner (tbl ++ [b]) = some b := by
  simp only [getToken] at h ⊢
  rw [List.find?_append, h, List.find?_cons_of_pos _ (by simp [hb])]
  rfl

theorem getToken_upsertToken (owner : String) (t : TokenInput) (tbl : List TokenRow) :
    getToken owner (upsertToken owner t tbl)
      = some (match getToken owner tbl with
              | some r => mergeTokenRow owner t r
              | none => boundTokenRow owner t) := by
  unfold upsertToken
  by_cases ha : tbl.any (fun r => r.telegram_user_id = owner) = true
  · rw [if_pos ha]
    obtain ⟨r0, h0⟩ := getToken_isSome_of_any owner tbl ha
    rw [getToken_map_merge owner t tbl r0 h0, h0]
  · rw [if_neg ha]
    have ha2 : ∀ x ∈ tbl, ¬ x.telegram_user_id = owner := by
      intro x hx hk
      exact ha (List.any_eq_true.mpr ⟨x, hx, by simp [hk]⟩)
    have h0 : getToken owner tbl = none := by
      simp only [getToken, List.find?_eq_none]
      intro x hx
      simp [ha2 x hx]
    rw [getToken_append_single owner tbl _ h0 rfl, h0]

/-- Keys of the `oauth_tokens` table; the PRIMARY KEY invariant is that this
list has no duplicates. -/
def tokenKeys (tbl : List TokenRow) : List String :=
  tbl.map fun r => r.telegram_user_id

theorem tokenKeys_upsertToken_nodup (owner : String) (t : TokenInput) (tbl : List TokenRow)
    (h : (tokenKeys tbl).Nodup) : (tokenKeys (upsertToken owner t tbl)).Nodup := by
  unfold upsertToken
  by_cases ha : tbl.any (fun r => r.telegram_user_id = owner) = true
  · rw [if_pos ha]
    have hkeys : tokenKeys
        (tbl.map fun r => if r.telegram_user_id = owner then mergeTokenRow owner t r else r)
        = tokenKeys tbl := by
      unfold tokenKeys
      rw [List.map_map]
      apply List.map_congr_left
      intro r _
      by_cases hk : r.telegram_user_id = owner
      · simp [hk, mergeTokenRow_key]
      · simp [hk]
    rwa [hkeys]
  · rw [if_neg ha]
    have ha2 : ∀ x ∈ tbl, ¬ x.telegram_user_id = owner := by
      intro x hx hk
      exact ha (List.any_eq_true.mpr ⟨x, hx, by simp [hk]⟩)
    unfold tokenKeys at h ⊢
    rw [List.map_append, List.nodup_append]
    refine ⟨h, by simp, ?_⟩
    intro a hmem hmem2
    obtain ⟨x, hx, rfl⟩ := List.mem_map.mp hmem
    simp only [List.map_cons, List.map_nil, List.mem_singleton, boundTokenRow] at hmem2
    exact ha2 x hx hmem2

/-! ### Claim theorems on the ledgers -/

/-- C2: `updateJobStatus` never clears a stored `video_id` when the call
supplies none (sticky `result_ref`), always overwrites `error` with the
supplied value including clearing it to absent, and refreshes `updated_at` on
every call. -/
theorem C2_update_status_field_semantics (now : Nat) (id status : String) (extra : JobExtra)
    (jobs : List JobRow) (r0 : JobRow) (h : getJob id jobs = some r0) :
    ∃ r1, getJob id (updateJobStatus now id status extra jobs) = some r1 ∧
      r1.status = status ∧
      r1.updated_at = now ∧
      r1.error = extra.error ∧
      (extra.video_id = none → r1.video_id = r0.video_id) ∧
      (∀ v, extra.video_id = some v → r1.video_id = some v) := by
  refine ⟨applyJobUpdate now status extra r0, ?_, rfl, rfl, rfl, ?_, ?_⟩
  · rw [getJob_updateJobStatus, h]
    rfl
  · intro hv
    simp [applyJobUpdate, hv]
  · intro v hv
    simp [applyJobUpdate, hv]

theorem C2_update_status_field_semantics_witness :
    ∃ r1, getJob "j" (updateJobStatus 5 "j" "failed" { error := some "boom" }
        [{ id := "j", telegram_user_id := "u", source_url := "s", status := "queued",
           created_at := 0, updated_at := 0, video_id := none, error := none }]) = some r1 ∧
      r1.status = "failed" ∧
      r1.updated_at = 5 ∧
      r1.error = ({ error := some "boom" } : JobExtra).error ∧
      (({ error := some "boom" } : JobExtra).video_id = none → r1.video_id = none) ∧
      (∀ v, ({ error := some "boom" } : JobExtra).video_id = some v → r1.video_id = some v) :=
  C2_update_status_field_semantics 5 "j" "failed" { error := some "boom" }
    [{ id := "j", telegram_user_id := "u", source_url := "s", status := "queued",
       created_at := 0, updated_at := 0, video_id := none, error := none }]
    { id := "j", telegram_user_id := "u", source_url := "s", status := "queued",
      created_at := 0, updated_at := 0, video_id := none, error := none } (by decide)

/-- C3: a state token freshly created by `createState` is returned together
with its owner by the first `consumeState` call, which deletes the pairing; a
second `consumeState` call with the same token returns NULL. -/
theorem C3_consume_state_once (owner tok : String) (now : Nat) (tbl : List StateRow)
    (hfresh : ∀ r ∈ tbl, r.state ≠ tok) :
    ∃ row, (consumeState tok (createState owner tok now tbl)).1 = some row ∧
      row.telegram_user_id = owner ∧
      (consumeState tok ((consumeState tok (createState owner tok now tbl)).2)).1 = none := by
  have h0 : (createState owner tok now tbl).find? (fun r => r.state = tok)
      = some { state := tok, telegram_user_id := owner, created_at := now } := by
    unfold createState
    have h1 : tbl.find? (fun r => r.state = tok) = none := by
      rw [List.find?_eq_none]
      intro x hx
      simp [hfresh x hx]
    rw [List.find?_append, h1, List.find?_cons_of_pos _ (by simp)]
    rfl
  refine ⟨{ state := tok, telegram_user_id := owner, created_at := now }, ?_, rfl, ?_⟩
  · unfold consumeState
    rw [h0]
  · unfold consumeState
    rw [h0]
    simp only
    rw [find?_filter_not_state]

theorem C3_consume_state_once_witness :
    ∃ row, (consumeState "s1" (createState "u1" "s1" 7 [])).1 = some row ∧
      row.telegram_user_id = "u1" ∧
      (consumeState "s1" ((consumeState "s1" (createState "u1" "s1" 7 [])).2)).1 = none :=
  C3_consume_state_once "u1" "s1" 7 [] (by intro r hr; cases hr)

/-- C4: `upsertToken` keeps at most one record per owner (no-duplicate keys
are preserved), and the refresh token is sticky: a second upsert that omits
`refresh_token` keeps the refresh token stored by the first upsert while the
access token and the remaining fields take the second call's values. -/
theorem C4_upsert_token_sticky_refresh (owner : String) (t1 t2 : TokenInput)
    (tbl : List TokenRow) (hnodup : (tokenKeys tbl).Nodup)
    (h2 : t2.refresh_token = none) :
    (tokenKeys (upsertToken owner t2 (upsertToken owner t1 tbl))).Nodup ∧
    ∃ r1 r2, getToken owner (upsertToken owner t1 tbl) = some r1 ∧
      getToken owner (upsertToken owner t2 (upsertToken owner t1 tbl)) = some r2 ∧
      r2.refresh_token = r1.refresh_token ∧
      r2.access_token = t2.access_token ∧
      r2.scope = jsOrNullStr t2.scope ∧
      r2.token_type = some (jsOrBearer t2.token_type) ∧
      r2.expiry_date = jsOrNullInt t2.expiry_date := by
  constructor
  · exact tokenKeys_upsertToken_nodup _ _ _ (tokenKeys_upsertToken_nodup _ _ _ hnodup)
  · have h1 := getToken_upsertToken owner t1 tbl
    have h2' := getToken_upsertToken owner t2 (upsertToken owner t1 tbl)
    rw [h1] at h2'
    refine ⟨_, _, h1, h2', ?_, ?_, ?_, ?_, ?_⟩
    · simp [mergeTokenRow, boundTokenRow, jsOrNullStr, h2]
    · simp [mergeTokenRow, boundTokenRow]
    · simp [mergeTokenRow, boundTokenRow]
    · simp [mergeTokenRow, boundTokenRow]
    · simp [mergeTokenRow, boundTokenRow]

theorem C4_upsert_token_sticky_refresh_witness :
    (tokenKeys (upsertToken "u1" { access_token := some "a2" }
       (upsertToken "u1" { access_token := some "a1", refresh_token := some "r1" } []))).Nodup ∧
    ∃ r1 r2, getToken "u1"
        (upsertToken "u1" { access_token := some "a1", refresh_token := some "r1" } []) = some r1 ∧
      getToken "u1" (upsertToken "u1" { access_token := some "a2" }
        (upsertToken "u1" { access_token := some "a1", refresh_token := some "r1" } [])) = some r2 ∧
      r2.refresh_token = r1.refresh_token ∧
      r2.access_token = ({ access_token := some "a2" } : TokenInput).access_token ∧
      r2.scope = jsOrNullStr ({ access_token := some "a2" } : TokenInput).scope ∧
      r2.token_type = some (jsOrBearer ({ access_token := some "a2" } : TokenInput).token_type) ∧
      r2.expiry_date = jsOrNullInt ({ access_token := some "a2" } : TokenInput).expiry_date :=
  C4_upsert_token_sticky_refresh "u1" { access_token := some "a1", refresh_token := some "r1" }
    { access_token := some "a2" } [] (by decide) (by decide)

/-- C10: calling `updateJobStatus` with a job id that is not in the table is
a silent no-op: it raises no error, creates no row, and leaves every existing
row unchanged. -/
theorem C10_update_missing_job_noop (now : Nat) (id status : String) (extra : JobExtra)
    (jobs : List JobRow) (h : ∀ r ∈ jobs, r.id ≠ id) :
    updateJobStatus now id status extra jobs = jobs := by
  unfold updateJobStatus
  induction jobs with
  | nil => rfl
  | cons r rest ih =>
    rw [List.map_cons, if_neg (h r (List.mem_cons_self r rest)),
        ih fun x hx => h x (List.mem_cons_of_mem r hx)]

theorem C10_update_missing_job_noop_witness :
    updateJobStatus 9 "missing" "failed" { error := some "e" }
        [{ id := "j", telegram_user_id := "u", source_url := "s", status := "queued",
           created_at := 0, updated_at := 0, video_id := none, error := none }]
      = [{ id := "j", telegram_user_id := "u", source_url := "s", status := "queued",
           created_at := 0, updated_at := 0, video_id := none, error := none }] :=
  C10_update_missing_job_noop 9 "missing" "failed" { error := some "e" } _ (by decide)

/-! ### Counterexamples: observer failures are not swallowed -/

/-- C1 counterexample: with every collaborator succeeding and the owner
linked, an observer that rejects on the `downloading` notification aborts the
job — no collaborator is ever invoked and the job ends `failed`, while the
identical run with a never-rejecting observer ends `completed`.  The
observer failure is therefore neither swallowed nor outcome-preserving. -/
theorem C1_counterexample :
    (runCreateShorts cfgObserverFailDownloading []).st.invoked = [] ∧
    (getJob "job1" (runCreateShorts cfgObserverFailDownloading []).st.jobs).map JobRow.status
      = some "failed" ∧
    (getJob "job1" (runCreateShorts cfgBase []).st.jobs).map JobRow.status
      = some "completed" := by
  decide

/-- C7 counterexample: when the observer rejects on the `completed`
notification, the status-write sequence is the full stage sequence through
`completed` followed by one more `failed` write — a `failed` written from the
terminal `completed` state, which the claimed trace shape forbids. -/
theorem C7_counterexample :
    (runCreateShorts cfgObserverFailCompleted []).st.writes
      = ["queued", "downloading", "processing", "audio_extract", "transcribing",
         "uploading", "completed", "failed"] ∧
    ¬ goodTrace (runCreateShorts cfgObserverFailCompleted []).st.writes := by
  decide

/-- C8 counterexample: after an observer rejection on the `completed`
notification the job's final row has status `failed` with BOTH `video_id`
and `error` set (the COALESCE keeps the stored `video_id`), violating the
claimed exactly-one-of invariant. -/
theorem C8_counterexample :
    getJob "job1" (runCreateShorts cfgObserverFailCompleted []).st.jobs
      = some rowAfterObserverFailCompleted ∧
    rowAfterObserverFailCompleted.video_id = some "vid123" ∧
    rowAfterObserverFailCompleted.error = some "observer down" ∧
    ¬ rowInvariant rowAfterObserverFailCompleted := by
  decide

/-! ### Run lemmas -/

theorem getJob_createJob_fresh (now : Nat) (id tuid url status : String) (jobs : List JobRow)
    (h : ∀ r ∈ jobs, r.id ≠ id) :
    getJob id (createJob now id tuid url status jobs)
      = some { id := id, telegram_user_id := tuid, source_url := url, status := status,
               created_at := now, updated_at := now, video_id := none, error := none } := by
  unfold createJob getJob
  have h1 : jobs.find? (fun r => r.id = id) = none := by
    rw [List.find?_eq_none]
    intro x hx
    simp [h x hx]
  rw [List.find?_append, h1, List.find?_cons_of_pos _ (by simp)]
  rfl

/-- C1 amended: an observer rejection at a stage-transition notification is
not swallowed — it is caught by the job-level handler, so the stage's
collaborator is never invoked and the job ends `failed` with the observer
error's message recorded (shown at the first transition, `downloading`). -/
theorem C1_observer_failure_aborts (cfg : RunCfg) (jobs0 : List JobRow)
    (f : String → Except String Unit) (e : String)
    (hn : cfg.notify = some f) (hfd : f "downloading" = Except.error e)
    (hfresh : ∀ r ∈ jobs0, r.id ≠ cfg.jobId) :
    (runCreateShorts cfg jobs0).st.invoked = [] ∧
    (runCreateShorts cfg jobs0).st.writes = ["queued", "downloading", "failed"] ∧
    ∃ r, getJob cfg.jobId (runCreateShorts cfg jobs0).st.jobs = some r ∧
      r.status = "failed" ∧ r.error = some e ∧ r.video_id = none := by
  have hcreate := getJob_createJob_fresh 0 cfg.jobId cfg.telegramUserId cfg.url "queued" jobs0 hfresh
  simp only [runCreateShorts, runBody, mkStep, recordUpdate, hn, hfd]
  cases hff : f ("failed: " ++ e) with
  | error e2 =>
    simp only [hff]
    refine ⟨by simp, by simp, ?_⟩
    rw [getJob_updateJobStatus, getJob_updateJobStatus, hcreate]
    exact ⟨_, rfl, rfl, rfl, rfl⟩
  | ok u =>
    simp only [hff]
    refine ⟨by simp, by simp, ?_⟩
    rw [getJob_updateJobStatus, getJob_updateJobStatus, hcreate]
    exact ⟨_, rfl, rfl, rfl, rfl⟩

/-- C9: when all five collaborator stages succeed, the owner has a stored
credential record, and the observer never rejects, the job ends `completed`,
its stored `video_id` equals exactly the identifier returned by the upload
collaborator, and the observer is invoked with `completed`. -/
theorem C9_success_reaches_completed (cfg : RunCfg) (jobs0 : List JobRow)
    (f : String → Except String Unit) (hn : cfg.notify = some f)
    (hf : ∀ s, f s = Except.ok ())
    (p1 p2 p3 p4 vid : String)
    (h1 : cfg.collabs.downloadVideo = Except.ok p1)
    (h2 : cfg.collabs.trimAndFormat = Except.ok p2)
    (h3 : cfg.collabs.extractAudio = Except.ok p3)
    (h4 : cfg.collabs.transcribeToSrt = Except.ok p4)
    (h5 : cfg.collabs.uploadVideoWithCaptions = Except.ok vid)
    (tok : TokenRow) (htok : getToken cfg.telegramUserId cfg.tokens = some tok)
    (hfresh : ∀ r ∈ jobs0, r.id ≠ cfg.jobId) :
    (runCreateShorts cfg jobs0).thrown = none ∧
    (runCreateShorts cfg jobs0).st.notified
      = ["downloading", "processing", "audio_extract", "transcribing", "uploading",
         "completed"] ∧
    (runCreateShorts cfg jobs0).st.invoked = collabNames ∧
    ∃ r, getJob cfg.jobId (runCreateShorts cfg jobs0).st.jobs = some r ∧
      r.status = "completed" ∧ r.video_id = some vid ∧ r.error = none := by
  have hcreate := getJob_createJob_fresh 0 cfg.jobId cfg.telegramUserId cfg.url "queued" jobs0 hfresh
  have hauth : getAuthorizedClient cfg.telegramUserId cfg.tokens
      = some { access_token := tok.access_token, refresh_token := tok.refresh_token,
               scope := tok.scope, token_type := tok.token_type,
               expiry_date := tok.expiry_date } := by
    simp [getAuthorizedClient, htok]
  simp only [runCreateShorts, runBody, mkStep, recordUpdate, hn, hf, h1, h2, h3, h4, h5, hauth]
  refine ⟨by simp, by simp, by simp [collabNames], ?_⟩
  rw [getJob_updateJobStatus, getJob_updateJobStatus, getJob_updateJobStatus,
      getJob_updateJobStatus, getJob_updateJobStatus, getJob_updateJobStatus, hcreate]
  exact ⟨_, rfl, rfl, rfl, rfl⟩

/-- C5: when the runner reaches the credential check (first four stages and
their notifications succeed) and the owner has no stored credential, the job
ends `failed` with the account-linking message and the upload collaborator is
never invoked. -/
theorem C5_missing_credential_no_upload (cfg : RunCfg) (jobs0 : List JobRow)
    (hok : ∀ f, cfg.notify = some f → ∀ s, f s = Except.ok ())
    (p1 p2 p3 p4 : String)
    (h1 : cfg.collabs.downloadVideo = Except.ok p1)
    (h2 : cfg.collabs.trimAndFormat = Except.ok p2)
    (h3 : cfg.collabs.extractAudio = Except.ok p3)
    (h4 : cfg.collabs.transcribeToSrt = Except.ok p4)
    (htok : getToken cfg.telegramUserId cfg.tokens = none)
    (hfresh : ∀ r ∈ jobs0, r.id ≠ cfg.jobId) :
    (runCreateShorts cfg jobs0).st.invoked
      = ["downloadVideo", "trimAndFormat", "extractAudio", "transcribeToSrt"] ∧
    "uploadVideoWithCaptions" ∉ (runCreateShorts cfg jobs0).st.invoked ∧
    ∃ r, getJob cfg.jobId (runCreateShorts cfg jobs0).st.jobs = some r ∧
      r.status = "failed" ∧
      r.error = some "Google not linked. Use the dashboard to connect your YouTube." := by
  have hcreate := getJob_createJob_fresh 0 cfg.jobId cfg.telegramUserId cfg.url "queued" jobs0 hfresh
  have hauth : getAuthorizedClient cfg.telegramUserId cfg.tokens = none := by
    simp [getAuthorizedClient, htok]
  have hinv : (runCreateShorts cfg jobs0).st.invoked
      = ["downloadVideo", "trimAndFormat", "extractAudio", "transcribeToSrt"] ∧
      ∃ r, getJob cfg.jobId (runCreateShorts cfg jobs0).st.jobs = some r ∧
        r.status = "failed" ∧
        r.error = some "Google not linked. Use the dashboard to connect your YouTube." := by
    rcases hn : cfg.notify with _ | f
    · simp only [runCreateShorts, runBody, mkStep, recordUpdate, hn, h1, h2, h3, h4, hauth]
      refine ⟨by simp, ?_⟩
      rw [getJob_updateJobStatus, getJob_updateJobStatus, getJob_updateJobStatus,
          getJob_updateJobStatus, getJob_updateJobStatus, hcreate]
      exact ⟨_, rfl, rfl, rfl⟩
    · have hf := hok f hn
      simp only [runCreateShorts, runBody, mkStep, recordUpdate, hn, hf, h1, h2, h3, h4, hauth]
      refine ⟨by simp, ?_⟩
      rw [getJob_updateJobStatus, getJob_updateJobStatus, getJob_updateJobStatus,
          getJob_updateJobStatus, getJob_updateJobStatus, hcreate]
      exact ⟨_, rfl, rfl, rfl⟩
  refine ⟨hinv.1, ?_, hinv.2⟩
  rw [hinv.1]
  decide

/-- C6: with a well-behaved observer, when the i-th collaborator rejects
(earlier ones succeeding, and the owner linked if the failing stage is the
upload), each collaborator is invoked at most once (the invocation list has
no duplicates and stops at the failing stage), the rejection message is
recorded verbatim as the job's `error` with status `failed`, nothing escapes
`runCreateShorts`, and the observer receives exactly one `failed: <message>`
notification, as the last entry of its notification sequence. -/
theorem C6_collaborator_failure_contained (cfg : RunCfg) (jobs0 : List JobRow)
    (f : String → Except String Unit) (hn : cfg.notify = some f)
    (hf : ∀ s, f s = Except.ok ())
    (i : Nat) (hi : i < 5) (e : String)
    (hie : collabOutcome cfg.collabs i = Except.error e)
    (hprev : ∀ j, j < i → ∃ v, collabOutcome cfg.collabs j = Except.ok v)
    (hauth : 4 ≤ i → ∃ tok, getToken cfg.telegramUserId cfg.tokens = some tok)
    (hfresh : ∀ r ∈ jobs0, r.id ≠ cfg.jobId) :
    (runCreateShorts cfg jobs0).thrown = none ∧
    (runCreateShorts cfg jobs0).st.notified
      = stageStatuses.take (i + 1) ++ ["failed: " ++ e] ∧
    (runCreateShorts cfg jobs0).st.invoked = collabNames.take (i + 1) ∧
    (runCreateShorts cfg jobs0).st.invoked.Nodup ∧
    ∃ r, getJob cfg.jobId (runCreateShorts cfg jobs0).st.jobs = some r ∧
      r.status = "failed" ∧ r.error = some e ∧ r.video_id = none := by
  have hcreate := getJob_createJob_fresh 0 cfg.jobId cfg.telegramUserId cfg.url "queued" jobs0 hfresh
  interval_cases i
  · simp only [collabOutcome] at hie
    simp only [runCreateShorts, runBody, mkStep, recordUpdate, hn, hf, hie]
    refine ⟨by simp, by simp [stageStatuses], by simp [collabNames], by decide, ?_⟩
    rw [getJob_updateJobStatus, getJob_updateJobStatus, hcreate]
    exact ⟨_, rfl, rfl, rfl, rfl⟩
  · obtain ⟨v0, h0⟩ := hprev 0 (by omega)
    simp only [collabOutcome] at hie h0
    simp only [runCreateShorts, runBody, mkStep, recordUpdate, hn, hf, h0, hie]
    refine ⟨by simp, by simp [stageStatuses], by simp [collabNames], by decide, ?_⟩
    rw [getJob_updateJobStatus, getJob_updateJobStatus, getJob_updateJobStatus, hcreate]
    exact ⟨_, rfl, rfl, rfl, rfl⟩
  · obtain ⟨v0, h0⟩ := hprev 0 (by omega)
    obtain ⟨v1, h1⟩ := hprev 1 (by omega)
    simp only [collabOutcome] at hie h0 h1
    simp only [runCreateShorts, runBody, mkStep, recordUpdate, hn, hf, h0, h1, hie]
    refine ⟨by simp, by simp [stageStatuses], by simp [collabNames], by decide, ?_⟩
    rw [getJob_updateJobStatus, getJob_updateJobStatus, getJob_updateJobStatus,
        getJob_updateJobStatus, hcreate]
    exact ⟨_, rfl, rfl, rfl, rfl⟩
  · obtain ⟨v0, h0⟩ := hprev 0 (by omega)
    obtain ⟨v1, h1⟩ := hprev 1 (by omega)
    obtain ⟨v2, h2⟩ := hprev 2 (by omega)
    simp only [collabOutcome] at hie h0 h1 h2
    simp only [runCreateShorts, runBody, mkStep, recordUpdate, hn, hf, h0, h1, h2, hie]
    refine ⟨by simp, by simp [stageStatuses], by simp [collabNames], by decide, ?_⟩
    rw [getJob_updateJobStatus, getJob_updateJobStatus, getJob_updateJobStatus,
        getJob_updateJobStatus, getJob_updateJobStatus, hcreate]
    exact ⟨_, rfl, rfl, rfl, rfl⟩
  · obtain ⟨v0, h0⟩ := hprev 0 (by omega)
    obtain ⟨v1, h1⟩ := hprev 1 (by omega)
    obtain ⟨v2, h2⟩ := hprev 2 (by omega)
    obtain ⟨v3, h3⟩ := hprev 3 (by omega)
    obtain ⟨tok, htok⟩ := hauth (by omega)
    have hauthc : getAuthorizedClient cfg.telegramUserId cfg.tokens
        = some { access_token := tok.access_token, refresh_token := tok.refresh_token,
                 scope := tok.scope, token_type := tok.token_type,
                 expiry_date := tok.expiry_date } := by
      simp [getAuthorizedClient, htok]
    simp only [collabOutcome] at hie h0 h1 h2 h3
    simp only [runCreateShorts, runBody, mkStep, recordUpdate, hn, hf, h0, h1, h2, h3,
               hauthc, hie]
    refine ⟨by simp, by simp [stageStatuses], by simp [collabNames], by decide, ?_⟩
    rw [getJob_updateJobStatus, getJob_updateJobStatus, getJob_updateJobStatus,
        getJob_updateJobStatus, getJob_updateJobStatus, getJob_updateJobStatus, hcreate]
    exact ⟨_, rfl, rfl, rfl, rfl⟩

/-- C7 amended: provided the observer does not reject the `completed`
notification, every run's status-write sequence for its job is an initial
segment of the linear stage order, optionally terminated by a single `failed`
written from a non-terminal state, with no stage repeated, skipped or
reordered.  (Without that proviso an observer rejection on `completed`
appends one further `failed` write after the terminal `completed`, as the
counterexample shows.) -/
theorem C7_status_write_sequence (cfg : RunCfg) (jobs0 : List JobRow)
    (hc : ∀ f, cfg.notify = some f → f "completed" = Except.ok ()) :
    goodTrace (runCreateShorts cfg jobs0).st.writes := by
  rcases hn : cfg.notify with _ | f
  · simp only [runCreateShorts, runBody, mkStep, recordUpdate, hn]
    rcases hd : cfg.collabs.downloadVideo with e | v1 <;> simp only [hd]
    · decide
    rcases hp : cfg.collabs.trimAndFormat with e | v2 <;> simp only [hp]
    · decide
    rcases ha : cfg.collabs.extractAudio with e | v3 <;> simp only [ha]
    · decide
    rcases ht : cfg.collabs.transcribeToSrt with e | v4 <;> simp only [ht]
    · decide
    rcases hg : getAuthorizedClient cfg.telegramUserId cfg.tokens with _ | c <;> simp only [hg]
    · decide
    rcases hu : cfg.collabs.uploadVideoWithCaptions with e | vid <;> simp only [hu]
    · decide
    decide
  · have hcf := hc f hn
    simp only [runCreateShorts, runBody, mkStep, recordUpdate, hn]
    rcases hfd : f "downloading" with e | u1 <;> simp only [hfd]
    · rcases hff : f ("failed: " ++ e) with e2 | u9 <;> simp only [hff] <;> decide
    rcases hd : cfg.collabs.downloadVideo with e | v1 <;> simp only [hd]
    · rcases hff : f ("failed: " ++ e) with e2 | u9 <;> simp only [hff] <;> decide
    rcases hfp : f "processing" with e | u2 <;> simp only [hfp]
    · rcases hff : f ("failed: " ++ e) with e2 | u9 <;> simp only [hff] <;> decide
    rcases hp : cfg.collabs.trimAndFormat with e | v2 <;> simp only [hp]
    · rcases hff : f ("failed: " ++ e) with e2 | u9 <;> simp only [hff] <;> decide
    rcases hfa : f "audio_extract" with e | u3 <;> simp only [hfa]
    · rcases hff : f ("failed: " ++ e) with e2 | u9 <;> simp only [hff] <;> decide
    rcases ha : cfg.collabs.extractAudio with e | v3 <;> simp only [ha]
    · rcases hff : f ("failed: " ++ e) with e2 | u9 <;> simp only [hff] <;> decide
    rcases hft : f "transcribing" with e | u4 <;> simp only [hft]
    · rcases hff : f ("failed: " ++ e) with e2 | u9 <;> simp only [hff] <;> decide
    rcases ht : cfg.collabs.transcribeToSrt with e | v4 <;> simp only [ht]
    · rcases hff : f ("failed: " ++ e) with e2 | u9 <;> simp only [hff] <;> decide
    rcases hg : getAuthorizedClient cfg.telegramUserId cfg.tokens with _ | c <;> simp only [hg]
    · rcases hff : f ("failed: " ++ "Google not linked. Use the dashboard to connect your YouTube.")
        with e2 | u9 <;> simp only [hff] <;> decide
    rcases hfu : f "uploading" with e | u5 <;> simp only [hfu]
    · rcases hff : f ("failed: " ++ e) with e2 | u9 <;> simp only [hff] <;> decide
    rcases hu : cfg.collabs.uploadVideoWithCaptions with e | vid <;> simp only [hu]
    · rcases hff : f ("failed: " ++ e) with e2 | u9 <;> simp only [hff] <;> decide
    simp only [hcf]
    decide

/-- C8 amended: provided the observer does not reject the `completed`
notification, after every ledger write of a run the job's row satisfies
exactly-one-of: `video_id` set with status `completed` and no `error`,
`error` set with status `failed` and no `video_id`, or neither set while in
progress.  (Without that proviso an observer rejection on `completed` leaves
a `failed` row with both `video_id` and `error` set, as the counterexample
shows.) -/
theorem C8_row_exactly_one (cfg : RunCfg) (jobs0 : List JobRow)
    (hc : ∀ f, cfg.notify = some f → f "completed" = Except.ok ())
    (hfresh : ∀ r ∈ jobs0, r.id ≠ cfg.jobId) :
    ∀ o ∈ (runCreateShorts cfg jobs0).st.rowHist, ∃ r, o = some r ∧ rowInvariant r := by
  have hcreate := getJob_createJob_fresh 0 cfg.jobId cfg.telegramUserId cfg.url "queued" jobs0 hfresh
  rcases hn : cfg.notify with _ | f
  · simp only [runCreateShorts, runBody, mkStep, recordUpdate, hn]
    rcases hd : cfg.collabs.downloadVideo with e | v1 <;> simp only [hd]
    · simp +decide [hcreate, getJob_updateJobStatus, rowInvariant, applyJobUpdate]
    rcases hp : cfg.collabs.trimAndFormat with e | v2 <;> simp only [hp]
    · simp +decide [hcreate, getJob_updateJobStatus, rowInvariant, applyJobUpdate]
    rcases ha : cfg.collabs.extractAudio with e | v3 <;> simp only [ha]
    · simp +decide [hcreate, getJob_updateJobStatus, rowInvariant, applyJobUpdate]
    rcases ht : cfg.collabs.transcribeToSrt with e | v4 <;> simp only [ht]
    · simp +decide [hcreate, getJob_updateJobStatus, rowInvariant, applyJobUpdate]
    rcases hg : getAuthorizedClient cfg.telegramUserId cfg.tokens with _ | c <;> simp only [hg]
    · simp +decide [hcreate, getJob_updateJobStatus, rowInvariant, applyJobUpdate]
    rcases hu : cfg.collabs.uploadVideoWithCaptions with e | vid <;> simp only [hu]
    · simp +decide [hcreate, getJob_updateJobStatus, rowInvariant, applyJobUpdate]
    simp +decide [hcreate, getJob_updateJobStatus, rowInvariant, applyJobUpdate]
  · have hcf := hc f hn
    simp only [runCreateShorts, runBody, mkStep, recordUpdate, hn]
    rcases hfd : f "downloading" with e | u1 <;> simp only [hfd]
    · rcases hff : f ("failed: " ++ e) with e2 | u9 <;> simp only [hff] <;>
        simp +decide [hcreate, getJob_updateJobStatus, rowInvariant, applyJobUpdate]
    rcases hd : cfg.collabs.downloadVideo with e | v1 <;> simp only [hd]
    · rcases hff : f ("failed: " ++ e) with e2 | u9 <;> simp only [hff] <;>
        simp +decide [hcreate, getJob_updateJobStatus, rowInvariant, applyJobUpdate]
    rcases hfp : f "processing" with e | u2 <;> simp only [hfp]
    · rcases hff : f ("failed: " ++ e) with e2 | u9 <;> simp only [hff] <;>
        simp +decide [hcreate, getJob_updateJobStatus, rowInvariant, applyJobUpdate]
    rcases hp : cfg.collabs.trimAndFormat with e | v2 <;> simp only [hp]
    · rcases hff : f ("failed: " ++ e) with e2 | u9 <;> simp only [hff] <;>
        simp +decide [hcreate, getJob_updateJobStatus, rowInvariant, applyJobUpdate]
    rcases hfa : f "audio_extract" with e | u3 <;> simp only [hfa]
    · rcases hff : f ("failed: " ++ e) with e2 | u9 <;> simp only [hff] <;>
        simp +decide [hcreate, getJob_updateJobStatus, rowInvariant, applyJobUpdate]
    rcases ha : cfg.collabs.extractAudio with e | v3 <;> simp only [ha]
    · rcases hff : f ("failed: " ++ e) with e2 | u9 <;> simp only [hff] <;>
        simp +decide [hcreate, getJob_updateJobStatus, rowInvariant, applyJobUpdate]
    rcases hft : f "transcribing" with e | u4 <;> simp only [hft]
    · rcases hff : f ("failed: " ++ e) with e2 | u9 <;> simp only [hff] <;>
        simp +decide [hcreate, getJob_updateJobStatus, rowInvariant, applyJobUpdate]
    rcases ht : cfg.collabs.transcribeToSrt with e | v4 <;> simp only [ht]
    · rcases hff : f ("failed: " ++ e) with e2 | u9 <;> simp only [hff] <;>
        simp +decide [hcreate, getJob_updateJobStatus, rowInvariant, applyJobUpdate]
    rcases hg : getAuthorizedClient cfg.telegramUserId cfg.tokens with _ | c <;> simp only [hg]
    · rcases hff : f ("failed: " ++ "Google not linked. Use the dashboard to connect your YouTube.")
        with e2 | u9 <;> simp only [hff] <;>
        simp +decide [hcreate, getJob_updateJobStatus, rowInvariant, applyJobUpdate]
    rcases hfu : f "uploading" with e | u5 <;> simp only [hfu]
    · rcases hff : f ("failed: " ++ e) with e2 | u9 <;> simp only [hff] <;>
        simp +decide [hcreate, getJob_updateJobStatus, rowInvariant, applyJobUpdate]
    rcases hu : cfg.collabs.uploadVideoWithCaptions with e | vid <;> simp only [hu]
    · rcases hff : f ("failed: " ++ e) with e2 | u9 <;> simp only [hff] <;>
        simp +decide [hcreate, getJob_updateJobStatus, rowInvariant, applyJobUpdate]
    simp only [hcf]
    simp +decide [hcreate, getJob_updateJobStatus, rowInvariant, applyJobUpdate]

/-! ### Witnesses -/

theorem C1_observer_failure_aborts_witness :
    (runCreateShorts cfgObserverFailDownloading []).st.invoked = [] ∧
    (runCreateShorts cfgObserverFailDownloading []).st.writes
      = ["queued", "downloading", "failed"] ∧
    ∃ r, getJob "job1" (runCreateShorts cfgObserverFailDownloading []).st.jobs = some r ∧
      r.status = "failed" ∧ r.error = some "observer down" ∧ r.video_id = none :=
  C1_observer_failure_aborts cfgObserverFailDownloading []
    (fun s => if s = "downloading" then Except.error "observer down" else Except.ok ())
    "observer down" rfl rfl (by intro r hr; cases hr)

theorem C5_missing_credential_no_upload_witness :
    (runCreateShorts cfgNoToken []).st.invoked
      = ["downloadVideo", "trimAndFormat", "extractAudio", "transcribeToSrt"] ∧
    "uploadVideoWithCaptions" ∉ (runCreateShorts cfgNoToken []).st.invoked ∧
    ∃ r, getJob "job1" (runCreateShorts cfgNoToken []).st.jobs = some r ∧
      r.status = "failed" ∧
      r.error = some "Google not linked. Use the dashboard to connect your YouTube." :=
  C5_missing_credential_no_upload cfgNoToken []
    (by
      intro f hf s
      obtain rfl : (fun _ => Except.ok ()) = f := Option.some.inj hf
      rfl)
    "/j/source.mp4" "/j/shorts.mp4" "/j/audio.m4a" "/j/audio.srt"
    rfl rfl rfl rfl rfl (by intro r hr; cases hr)

theorem C6_collaborator_failure_contained_witness :
    (runCreateShorts cfgTranscribeFails []).thrown = none ∧
    (runCreateShorts cfgTranscribeFails []).st.notified
      = stageStatuses.take (3 + 1) ++ ["failed: " ++ "whisper failed"] ∧
    (runCreateShorts cfgTranscribeFails []).st.invoked = collabNames.take (3 + 1) ∧
    (runCreateShorts cfgTranscribeFails []).st.invoked.Nodup ∧
    ∃ r, getJob "job1" (runCreateShorts cfgTranscribeFails []).st.jobs = some r ∧
      r.status = "failed" ∧ r.error = some "whisper failed" ∧ r.video_id = none :=
  C6_collaborator_failure_contained cfgTranscribeFails []
    (fun _ => Except.ok ()) rfl (fun _ => rfl)
    3 (by decide) "whisper failed" rfl
    (by
      intro j hj
      interval_cases j
      · exact ⟨"/j/source.mp4", rfl⟩
      · exact ⟨"/j/shorts.mp4", rfl⟩
      · exact ⟨"/j/audio.m4a", rfl⟩)
    (fun h => absurd h (by decide))
    (by intro r hr; cases hr)

theorem C7_status_write_sequence_witness :
    goodTrace (runCreateShorts cfgBase []).st.writes :=
  C7_status_write_sequence cfgBase []
    (by
      intro f hf
      obtain rfl : (fun _ => Except.ok ()) = f := Option.some.inj hf
      rfl)

theorem C8_row_exactly_one_witness :
    ∃ r, (some rowCompletedBase : Option JobRow) = some r ∧ rowInvariant r :=
  C8_row_exactly_one cfgBase []
    (by
      intro f hf
      obtain rfl : (fun _ => Except.ok ()) = f := Option.some.inj hf
      rfl)
    (by intro r hr; cases hr)
    (some rowCompletedBase) (by decide)

theorem C9_success_reaches_completed_witness :
    (runCreateShorts cfgBase []).thrown = none ∧
    (runCreateShorts cfgBase []).st.notified
      = ["downloading", "processing", "audio_extract", "transcribing", "uploading",
         "completed"] ∧
    (runCreateShorts cfgBase []).st.invoked = collabNames ∧
    ∃ r, getJob "job1" (runCreateShorts cfgBase []).st.jobs = some r ∧
      r.status = "completed" ∧ r.video_id = some "vid123" ∧ r.error = none :=
  C9_success_reaches_completed cfgBase []
    (fun _ => Except.ok ()) rfl (fun _ => rfl)
    "/j/source.mp4" "/j/shorts.mp4" "/j/audio.m4a" "/j/audio.srt" "vid123"
    rfl rfl rfl rfl rfl
    { telegram_user_id := "u1", access_token := some "a", refresh_token := some "r",
      scope := none, token_type := some "Bearer", expiry_date := none }
    rfl (by intro r hr; cases hr)
